import Mathlib

/-!
Shallow embedding of `sentence_embedding_evaluation_german/data.py`: the
train/validation splitter `get_data_split`, the dataset contract shared by all
corpus adapters (`__len__`, `__getitem__`, `get_validation_set`), and the
adapter constructors `GermEval17`, `GermEval18`, `GermEval19`, `GermEval21`
and `GermEval21vmwe`.

Modelling conventions:
* a pandas cell is a `Cell`; a row of the loaded file is a `List Cell`, and
  `row[j]` / `data[:, j]` is `getCol` (corpus files are rectangular, so the
  `Cell.nan` default for a missing column is never exercised);
* Python floats are modelled as the exact rationals denoted in the source
  text, and `int(x)` for the non-negative products arising here is the floor;
* torch's global pseudo-random generator is abstracted: `randperm` maps a
  generator state and `n` to a list (assumed, where a claim needs it, to be a
  permutation of `List.range n`), `manualSeed` maps a seed to the state set by
  `torch.manual_seed`, and `g` is whatever state the global generator held
  when the call started;
* Python exceptions (`assert`, `list.index`, a missing attribute, tensor
  indexing) are modelled with `Except PyError`; a bare `assert` statement
  raises an `AssertionError` carrying no message, hence `Option String`.
-/

/-- A value in a cell of the loaded tabular file. -/
inductive Cell where
  | str : String → Cell
  | bool : Bool → Cell
  | num : Int → Cell
  | nan : Cell
deriving DecidableEq

/-- A row of the loaded file. -/
abbrev Row := List Cell

/-- `row[j]` on a row of the rectangular data matrix. -/
def getCol (r : Row) (j : Nat) : Cell := r.getD j Cell.nan

/-- The Python exceptions raised by the code under study. A bare `assert`
raises `AssertionError` with no message, so the message is optional. -/
inductive PyError where
  | assertionError (msg : Option String)
  | valueError
  | attributeError
  | indexError
deriving DecidableEq

instance exceptDecEq {ε α : Type} [DecidableEq ε] [DecidableEq α] :
    DecidableEq (Except ε α) := fun a b =>
  match a, b with
  | .ok x, .ok y =>
    if h : x = y then .isTrue (by rw [h]) else .isFalse (by simp [h])
  | .error x, .error y =>
    if h : x = y then .isTrue (by rw [h]) else .isFalse (by simp [h])
  | .ok _, .error _ => .isFalse (by simp)
  | .error _, .ok _ => .isFalse (by simp)

/-- Python `str` on a cell, as used by `str(s).split(":")[0]` (data.py:63). -/
def pyStr : Cell → String
  | Cell.str s => s
  | Cell.bool b => if b then "True" else "False"
  | Cell.num n => toString n
  | Cell.nan => "nan"

/-- Python `list.index`: position of the first occurrence, `ValueError` when
the element is absent (`self.labels.index(...)`, data.py:72). -/
def pyIndex {α : Type} [DecidableEq α] (l : List α) (x : α) : Except PyError Nat :=
  match l with
  | [] => .error PyError.valueError
  | a :: rest =>
    if a = x then .ok 0
    else
      match pyIndex rest x with
      | .ok i => .ok (i + 1)
      | .error e => .error e

/-- `list.index` at a call site where the element is guaranteed present (the
task assertion precedes every `colidx` computation, data.py:41-43). -/
def listIndexD {α : Type} [DecidableEq α] (l : List α) (x : α) : Nat :=
  match pyIndex l x with
  | .ok i => i
  | .error _ => l.length

/-- A Python list comprehension whose body may raise: evaluated left to
right, the first exception propagates. -/
def pyListMap {α β : Type} (f : α → Except PyError β) : List α → Except PyError (List β)
  | [] => .ok []
  | a :: l =>
    match f a with
    | .error e => .error e
    | .ok b =>
      match pyListMap f l with
      | .error e => .error e
      | .ok bs => .ok (b :: bs)

/-- `int(n * split_ratio)` (data.py:14); for the non-negative products taken
here, Python `int` truncation is the floor. -/
def n_valid_of (n : Nat) (r : ℚ) : Nat := (⌊(n : ℚ) * r⌋).toNat

/-- The generator state after the `if random_seed: torch.manual_seed(...)`
guard (data.py:10-11): a zero seed is falsy in Python, so the generator is
reseeded only when the seed is non-zero. -/
def seededState (manualSeed : Int → Nat) (g : Nat) (random_seed : Int) : Nat :=
  if random_seed = 0 then g else manualSeed random_seed

/-- `get_data_split` (data.py:6-17). `randperm` abstracts `torch.randperm` as
a function of the generator state and `n`; `g` is the incoming global state. -/
def get_data_split (randperm : Nat → Nat → List Nat) (manualSeed : Int → Nat)
    (g : Nat) (n : Nat) (split_ratio : ℚ) (random_seed : Int) :
    List Nat × List Nat :=
  let idx := randperm (seededState manualSeed g random_seed) n
  let n_valid := n_valid_of n split_ratio
  (idx.drop n_valid, idx.take n_valid)

/-- The default `split_ratio = 0.2` of every constructor signature
(data.py:7, 39, 119, 184, 254, 311). -/
def splitRatioDefault : ℚ := 1 / 5

/-- A concrete generator for witnesses: states are ignored and the identity
permutation is produced. -/
def rangePerm : Nat → Nat → List Nat := fun _ n => List.range n

/-- A concrete reseeding map for witnesses. -/
def natAbsSeed : Int → Nat := Int.natAbs

theorem n_valid_of_le (n : Nat) (r : ℚ) (h1 : r < 1) :
    n_valid_of n r ≤ n := by
  have hfl : ⌊(n : ℚ) * r⌋ < (n : ℤ) + 1 := by
    apply Int.floor_lt.2
    push_cast
    nlinarith [Nat.cast_nonneg (α := ℚ) n]
  unfold n_valid_of
  omega

theorem n_valid_of_nonneg_floor (n : Nat) (r : ℚ) (h0 : 0 ≤ r) :
    0 ≤ ⌊(n : ℚ) * r⌋ :=
  Int.floor_nonneg.2 (mul_nonneg (Nat.cast_nonneg n) h0)

/-- C1: for every `n ≥ 0` and `split_ratio ∈ [0,1)` — whenever
`torch.randperm` returns a permutation of `[0, n)` — the split satisfies
`len(train) + len(valid) = n`, `len(valid) = ⌊n * split_ratio⌋`, the two index
lists are disjoint and their union is exactly `[0, n)`; `split_ratio = 0`
yields an empty validation part and the full permutation as the training
part, and `n = 0` yields two empty parts. -/
theorem get_data_split_spec (randperm : Nat → Nat → List Nat)
    (manualSeed : Int → Nat) (g : Nat) (n : Nat) (split_ratio : ℚ)
    (random_seed : Int) (tr va : List Nat)
    (h : get_data_split randperm manualSeed g n split_ratio random_seed = (tr, va))
    (hperm : (randperm (seededState manualSeed g random_seed) n).Perm (List.range n))
    (h0 : 0 ≤ split_ratio) (h1 : split_ratio < 1) :
    tr.length + va.length = n
    ∧ (va.length : ℤ) = ⌊(n : ℚ) * split_ratio⌋
    ∧ List.Disjoint tr va
    ∧ (∀ i, (i ∈ tr ∨ i ∈ va) ↔ i < n)
    ∧ (split_ratio = 0 →
        va = [] ∧ tr = randperm (seededState manualSeed g random_seed) n)
    ∧ (n = 0 → tr = [] ∧ va = []) := by
  simp only [get_data_split] at h
  obtain ⟨rfl, rfl⟩ := Prod.mk.injEq .. ▸ h
  set idx := randperm (seededState manualSeed g random_seed) n with hidx
  have hlen : idx.length = n := hperm.length_eq.trans (List.length_range n)
  have hle : n_valid_of n split_ratio ≤ n := n_valid_of_le n split_ratio h1
  have hfl0 : 0 ≤ ⌊(n : ℚ) * split_ratio⌋ := n_valid_of_nonneg_floor n split_ratio h0
  have hnodup : idx.Nodup := hperm.symm.nodup (List.nodup_range n)
  have hsplit : idx.take (n_valid_of n split_ratio) ++ idx.drop (n_valid_of n split_ratio) = idx :=
    List.take_append_drop _ _
  refine ⟨?_, ?_, ?_, ?_, ?_, ?_⟩
  · simp [hlen]
    omega
  · have : (idx.take (n_valid_of n split_ratio)).length = n_valid_of n split_ratio := by
      simp [hlen]
      omega
    rw [this]
    unfold n_valid_of
    omega
  · have : (idx.take (n_valid_of n split_ratio) ++ idx.drop (n_valid_of n split_ratio)).Nodup := by
      rw [hsplit]; exact hnodup
    exact (List.nodup_append.1 this).2.2.symm
  · intro i
    have hmem : i ∈ idx ↔ i < n := by
      rw [hperm.mem_iff, List.mem_range]
    rw [← hmem]
    conv_rhs => rw [← hsplit]
    rw [List.mem_append]
    exact Or.comm
  · intro hr
    have : n_valid_of n split_ratio = 0 := by
      simp [n_valid_of, hr]
    simp [this]
  · intro hn
    have : idx = [] := by
      apply List.eq_nil_of_length_eq_zero
      rw [hlen, hn]
    simp [this]

theorem get_data_split_spec_witness :
    [2, 3, 4, 5, 6, 7, 8, 9].length + [0, 1].length = 10
    ∧ (([0, 1].length : ℤ) = ⌊(10 : ℚ) * (1 / 5)⌋)
    ∧ List.Disjoint [2, 3, 4, 5, 6, 7, 8, 9] [0, 1]
    ∧ (∀ i, (i ∈ [2, 3, 4, 5, 6, 7, 8, 9] ∨ i ∈ [0, 1]) ↔ i < 10)
    ∧ ((1 / 5 : ℚ) = 0 →
        [0, 1] = [] ∧ [2, 3, 4, 5, 6, 7, 8, 9] = rangePerm (seededState natAbsSeed 0 42) 10)
    ∧ (10 = 0 → [2, 3, 4, 5, 6, 7, 8, 9] = [] ∧ [0, 1] = []) :=
  get_data_split_spec rangePerm natAbsSeed 0 10 (1 / 5) 42
    [2, 3, 4, 5, 6, 7, 8, 9] [0, 1]
    (by
      have hnv : n_valid_of 10 (1 / 5) = 2 := by
        unfold n_valid_of
        norm_num
        decide
      simp only [get_data_split, hnv, rangePerm]
      decide)
    (by rw [rangePerm])
    (by norm_num)
    (by norm_num)

/-- C3: with a non-zero seed, the split is a deterministic function of
`(n, split_ratio, random_seed)`: the incoming generator state is irrelevant
because `torch.manual_seed` resets it before `torch.randperm` draws. -/
theorem get_data_split_deterministic (randperm : Nat → Nat → List Nat)
    (manualSeed : Int → Nat) (g₁ g₂ : Nat) (n : Nat) (split_ratio : ℚ)
    (random_seed : Int) (h : random_seed ≠ 0) :
    get_data_split randperm manualSeed g₁ n split_ratio random_seed
      = get_data_split randperm manualSeed g₂ n split_ratio random_seed := by
  unfold get_data_split seededState
  rw [if_neg h]
  rw [if_neg h]

theorem get_data_split_deterministic_witness :
    get_data_split rangePerm natAbsSeed 7 10 (1 / 5) 42
      = get_data_split rangePerm natAbsSeed 99 10 (1 / 5) 42 :=
  get_data_split_deterministic rangePerm natAbsSeed 7 99 10 (1 / 5) 42 (by decide)

/-- The state a constructed dataset object holds (`self.X`, `self.y`,
`self.labels`, `self.indices`, `self.idx_valid`). `self.labels` is unset on
`GermEval21` (and on `GermEval18` with task `"C"`), hence the `Option`. -/
structure PyDataset (F Y : Type) where
  X : List F
  y : List Y
  labels : Option (List Cell)
  indices : List Nat
  idx_valid : Option (List Nat)
deriving DecidableEq

/-- Integer indexing of a torch tensor / list: indices in `[-len, len)` are
valid, negative ones count from the end, anything else raises `IndexError`. -/
def tensorGet {α : Type} (xs : List α) (i : Int) : Except PyError α :=
  let j : Int := if i < 0 then i + xs.length else i
  if h : 0 ≤ j ∧ j.toNat < xs.length then .ok (xs.get ⟨j.toNat, h.2⟩)
  else .error PyError.indexError

/-- Fancy indexing `xs[indices]` with a list of non-negative indices. -/
def fancyIndex {α : Type} (xs : List α) (is : List Nat) : Except PyError (List α) :=
  pyListMap (fun i => if h : i < xs.length then .ok (xs.get ⟨i, h⟩)
                      else .error PyError.indexError) is

/-- `__len__` (data.py:93-94): `len(self.indices)`. -/
def PyDataset.len {F Y : Type} (ds : PyDataset F Y) : Nat := ds.indices.length

/-- `__getitem__` (data.py:96-97):
`(self.X[self.indices[rowidx]], self.y[self.indices[rowidx]])`. -/
def PyDataset.getItem {F Y : Type} (ds : PyDataset F Y) (rowidx : Int) :
    Except PyError (F × Y) :=
  match tensorGet ds.indices rowidx with
  | .error e => .error e
  | .ok j =>
    match tensorGet ds.X (j : Int) with
    | .error e => .error e
    | .ok xv =>
      match tensorGet ds.y (j : Int) with
      | .error e => .error e
      | .ok yv => .ok (xv, yv)

/-- `get_validation_set` (data.py:81-85): the explicit `(None, None)` sentinel
when no validation split exists, else `(X[idx_valid], y[idx_valid])`. -/
def PyDataset.getValidationSet {F Y : Type} (ds : PyDataset F Y) :
    Except PyError (Option (List F × List Y)) :=
  match ds.idx_valid with
  | none => .ok none
  | some iv =>
    match fancyIndex ds.X iv with
    | .error e => .error e
    | .ok xs =>
      match fancyIndex ds.y iv with
      | .error e => .error e
      | .ok ys => .ok (some (xs, ys))

/-- The split-preparation tail shared by every constructor (data.py:74-79):
note that the call to `get_data_split` passes only `self.X.shape[0]` and
`random_seed`, so the constructor's `split_ratio` argument is never forwarded
and the default `0.2` always applies. -/
def buildDataset {F Y : Type} (randperm : Nat → Nat → List Nat)
    (manualSeed : Int → Nat) (g : Nat) (X : List F) (y : List Y)
    (labels : Option (List Cell)) (test : Bool) (early_stopping : Bool)
    (random_seed : Int) : PyDataset F Y :=
  if early_stopping = true ∧ test = false then
    let s := get_data_split randperm manualSeed g X.length splitRatioDefault random_seed
    { X := X, y := y, labels := labels, indices := s.1, idx_valid := some s.2 }
  else
    { X := X, y := y, labels := labels, indices := List.range X.length, idx_valid := none }

/-- The task label vocabularies of `GermEval17` (data.py:45-57). -/
def germEval17Labels (task : String) : List Cell :=
  if task = "Relevance" then [Cell.bool false, Cell.bool true]
  else if task = "Sentiment" then
    [Cell.str "negative", Cell.str "neutral", Cell.str "positive"]
  else
    [Cell.str "Image", Cell.str "Informationen", Cell.str "Connectivity",
     Cell.str "Auslastung_und_Platzangebot", Cell.str "Service_und_Kundenbetreuung",
     Cell.str "Gastronomisches_Angebot", Cell.str "Allgemein", Cell.str "Design",
     Cell.str "Sonstige_Unregelmässigkeiten", Cell.str "Gepäck",
     Cell.str "DB_App_und_Website", Cell.str "Atmosphäre", Cell.str "Zugfahrt",
     Cell.str "Ticketkauf", Cell.str "nan", Cell.str "Reisen_mit_Kindern",
     Cell.str "Barrierefreiheit", Cell.str "Sicherheit", Cell.str "Toiletten",
     Cell.str "Komfort_und_Ausstattung"]

/-- `self.colidx` of `GermEval17` (data.py:42-43). -/
def germEval17Colidx (task : String) : Nat :=
  listIndexD ["Relevance", "Sentiment", "Category"] task + 2

/-- The column-4 normalization `str(s).split(":")[0]` (data.py:63). -/
def germEval17Normalize (r : Row) : Row :=
  r.set 4 (Cell.str (((pyStr (getCol r 4)).splitOn ":").headD ""))

/-- Rows of `GermEval17` after the column-4 normalization and the removal of
rows whose text field is not a string (data.py:63-67). -/
def germEval17Retained (data : List Row) : List Row :=
  (data.map germEval17Normalize).filter fun r =>
    match getCol r 1 with
    | Cell.str _ => true
    | _ => false

/-- `GermEval17.__init__` (data.py:33-79). `data` stands for the parsed rows
of `datasets/germeval17/{split}.tsv`; reading the file itself is outside the
embedded fragment, so the constructor is a function of those rows. -/
def germEval17Init {F : Type} (randperm : Nat → Nat → List Nat)
    (manualSeed : Int → Nat) (g : Nat) (pp : List Cell → List F)
    (data : List Row) (task : String) (test : Bool) (early_stopping : Bool)
    (split_ratio : ℚ) (random_seed : Int) : Except PyError (PyDataset F Nat) :=
  if task ∈ ["Relevance", "Sentiment", "Category"] then
    match pyListMap
        (fun r => pyIndex (germEval17Labels task) (getCol r (germEval17Colidx task)))
        (germEval17Retained data) with
    | .error e => .error e
    | .ok y =>
      .ok (buildDataset randperm manualSeed g
        (pp ((germEval17Retained data).map fun r => getCol r 1)) y
        (some (germEval17Labels task)) test early_stopping random_seed)
  else .error (PyError.assertionError none)

/-- The task label vocabularies of `GermEval18` (data.py:124-127): the
`if`/`elif` chain covers only `"A"` and `"B"`, so for task `"C"` the
`self.labels` attribute is never assigned. -/
def germEval18Labels (task : String) : Option (List Cell) :=
  if task = "A" then some [Cell.str "OFFENSE", Cell.str "OTHER"]
  else if task = "B" then
    some [Cell.str "PROFANITY", Cell.str "INSULT", Cell.str "ABUSE", Cell.str "OTHER"]
  else none

/-- `self.colidx` of `GermEval18` (data.py:122). -/
def germEval18Colidx (task : String) : Nat := listIndexD ["A", "B", "C"] task + 1

/-- `GermEval18.__init__` (data.py:113-144). Accessing the unset
`self.labels` inside the encoding comprehension raises `AttributeError`, and
Python evaluates `self.labels` before the row subscript, so the attribute
check comes first. -/
def germEval18Init {F : Type} (randperm : Nat → Nat → List Nat)
    (manualSeed : Int → Nat) (g : Nat) (pp : List Cell → List F)
    (data : List Row) (task : String) (test : Bool) (early_stopping : Bool)
    (split_ratio : ℚ) (random_seed : Int) : Except PyError (PyDataset F Nat) :=
  if task ∈ ["A", "B", "C"] then
    match pyListMap
        (fun r =>
          match germEval18Labels task with
          | none => .error PyError.attributeError
          | some v => pyIndex v (getCol r (germEval18Colidx task)))
        data with
    | .error e => .error e
    | .ok y =>
      .ok (buildDataset randperm manualSeed g
        (pp (data.map fun r => getCol r 0)) y
        (germEval18Labels task) test early_stopping random_seed)
  else .error (PyError.assertionError none)

/-- The task label vocabularies of `GermEval19` (data.py:189-197); the file
suffix `fsuf` only selects which file is read and `data` already stands for
the parsed rows of that file. -/
def germEval19Labels (task : String) : List Cell :=
  if task = "A" then [Cell.str "OFFENSE", Cell.str "OTHER"]
  else if task = "B" then
    [Cell.str "PROFANITY", Cell.str "INSULT", Cell.str "ABUSE", Cell.str "OTHER"]
  else [Cell.str "EXPLICIT", Cell.str "IMPLICIT"]

/-- `self.colidx` of `GermEval19` (data.py:187). -/
def germEval19Colidx (task : String) : Nat := listIndexD ["A", "B", "C"] task + 1

/-- `GermEval19.__init__` (data.py:178-214). -/
def germEval19Init {F : Type} (randperm : Nat → Nat → List Nat)
    (manualSeed : Int → Nat) (g : Nat) (pp : List Cell → List F)
    (data : List Row) (task : String) (test : Bool) (early_stopping : Bool)
    (split_ratio : ℚ) (random_seed : Int) : Except PyError (PyDataset F Nat) :=
  if task ∈ ["A", "B", "C"] then
    match pyListMap
        (fun r => pyIndex (germEval19Labels task) (getCol r (germEval19Colidx task)))
        data with
    | .error e => .error e
    | .ok y =>
      .ok (buildDataset randperm manualSeed g
        (pp (data.map fun r => getCol r 0)) y
        (some (germEval19Labels task)) test early_stopping random_seed)
  else .error (PyError.assertionError none)

/-- `GermEval21.__init__` (data.py:248-272): no label vocabulary is defined
(`num_classes` is the constant 2); the label column is used as-is. -/
def germEval21Init {F : Type} (randperm : Nat → Nat → List Nat)
    (manualSeed : Int → Nat) (g : Nat) (pp : List Cell → List F)
    (data : List Row) (task : String) (test : Bool) (early_stopping : Bool)
    (split_ratio : ℚ) (random_seed : Int) : Except PyError (PyDataset F Cell) :=
  if task ∈ ["TOXIC", "ENGAGE", "FCLAIM"] then
    let colidx := listIndexD ["TOXIC", "ENGAGE", "FCLAIM"] task + 2
    .ok (buildDataset randperm manualSeed g
      (pp (data.map fun r => getCol r 1))
      (data.map fun r => getCol r colidx)
      none test early_stopping random_seed)
  else .error (PyError.assertionError none)

/-- The label vocabulary of `GermEval21vmwe` (data.py:314). -/
def germEval21vmweLabels : List Cell := [Cell.str "figuratively", Cell.str "literally"]

/-- Rows of `GermEval21vmwe` after dropping rows whose label (column 2) is
outside the vocabulary (data.py:320-323). -/
def germEval21vmweRetained (data : List Row) : List Row :=
  data.filter fun r => decide (getCol r 2 ∈ germEval21vmweLabels)

/-- `GermEval21vmwe.__init__` (data.py:306-335): the only adapter without a
task selector, and the only one whose row filter is vocabulary membership. -/
def germEval21vmweInit {F : Type} (randperm : Nat → Nat → List Nat)
    (manualSeed : Int → Nat) (g : Nat) (pp : List Cell → List F)
    (data : List Row) (test : Bool) (early_stopping : Bool)
    (split_ratio : ℚ) (random_seed : Int) : Except PyError (PyDataset F Nat) :=
  match pyListMap
      (fun r => pyIndex germEval21vmweLabels (getCol r 2))
      (germEval21vmweRetained data) with
  | .error e => .error e
  | .ok y =>
    .ok (buildDataset randperm manualSeed g
      (pp ((germEval21vmweRetained data).map fun r => getCol r 3)) y
      (some germEval21vmweLabels) test early_stopping random_seed)

theorem pyIndex_ok {α : Type} [DecidableEq α] (l : List α) (x : α) :
    ∀ i : Nat, pyIndex l x = .ok i → ∃ h : i < l.length, l.get ⟨i, h⟩ = x := by
  induction l with
  | nil => intro i h; simp [pyIndex] at h
  | cons a rest ih =>
    intro i h
    simp only [pyIndex] at h
    by_cases hax : a = x
    · rw [if_pos hax] at h
      injection h with h2
      subst h2
      exact ⟨Nat.succ_pos _, hax⟩
    · rw [if_neg hax] at h
      cases heq : pyIndex rest x with
      | ok j =>
        rw [heq] at h
        injection h with h2
        subst h2
        obtain ⟨hj, hget⟩ := ih j heq
        exact ⟨Nat.succ_lt_succ hj, hget⟩
      | error e =>
        rw [heq] at h
        cases h

theorem pyIndex_mem {α : Type} [DecidableEq α] (l : List α) (x : α) (hx : x ∈ l) :
    ∃ i, pyIndex l x = .ok i := by
  induction l with
  | nil => cases hx
  | cons a rest ih =>
    by_cases hax : a = x
    · exact ⟨0, by simp only [pyIndex]; rw [if_pos hax]⟩
    · have hxr : x ∈ rest := by
        cases hx with
        | head => exact absurd rfl hax
        | tail _ hmem => exact hmem
      obtain ⟨j, hj⟩ := ih hxr
      exact ⟨j + 1, by simp only [pyIndex]; rw [if_neg hax, hj]⟩

theorem pyListMap_ok_length {α β : Type} (f : α → Except PyError β) :
    ∀ (l : List α) (ys : List β), pyListMap f l = .ok ys → ys.length = l.length := by
  intro l
  induction l with
  | nil =>
    intro ys h
    simp only [pyListMap] at h
    injection h with h2
    rw [← h2]
    rfl
  | cons a rest ih =>
    intro ys h
    simp only [pyListMap] at h
    cases hfa : f a with
    | error e => rw [hfa] at h; cases h
    | ok b =>
      rw [hfa] at h
      cases hrest : pyListMap f rest with
      | error e => rw [hrest] at h; cases h
      | ok bs =>
        rw [hrest] at h
        injection h with h2
        rw [← h2]
        simp [ih bs hrest]

theorem pyListMap_ok_get {α β : Type} (f : α → Except PyError β) :
    ∀ (l : List α) (ys : List β), pyListMap f l = .ok ys →
      ∀ (i : Nat) (hi : i < l.length) (hy : i < ys.length),
        f (l.get ⟨i, hi⟩) = .ok (ys.get ⟨i, hy⟩) := by
  intro l
  induction l with
  | nil => intro ys h i hi hy; exact absurd hi (by simp)
  | cons a rest ih =>
    intro ys h i hi hy
    simp only [pyListMap] at h
    cases hfa : f a with
    | error e => rw [hfa] at h; cases h
    | ok b =>
      rw [hfa] at h
      cases hrest : pyListMap f rest with
      | error e => rw [hrest] at h; cases h
      | ok bs =>
        rw [hrest] at h
        injection h with h2
        subst h2
        cases i with
        | zero => exact hfa
        | succ j => exact ih bs hrest j (Nat.lt_of_succ_lt_succ hi) (Nat.lt_of_succ_lt_succ hy)

theorem pyListMap_total {α β : Type} (f : α → Except PyError β) :
    ∀ (l : List α), (∀ a ∈ l, ∃ b, f a = .ok b) → ∃ ys, pyListMap f l = .ok ys := by
  intro l
  induction l with
  | nil => intro _; exact ⟨[], rfl⟩
  | cons a rest ih =>
    intro h
    obtain ⟨b, hb⟩ := h a (List.mem_cons_self a rest)
    obtain ⟨bs, hbs⟩ := ih fun x hx => h x (List.mem_cons_of_mem a hx)
    exact ⟨b :: bs, by simp only [pyListMap]; rw [hb, hbs]⟩

theorem fancyIndex_total {α : Type} (xs : List α) (is : List Nat)
    (h : ∀ i ∈ is, i < xs.length) : ∃ out, fancyIndex xs is = .ok out := by
  apply pyListMap_total
  intro i hi
  exact ⟨xs.get ⟨i, h i hi⟩, dif_pos (h i hi)⟩

theorem buildDataset_X {F Y : Type} (rp : Nat → Nat → List Nat) (ms : Int → Nat)
    (g : Nat) (X : List F) (y : List Y) (labels : Option (List Cell))
    (test es : Bool) (seed : Int) :
    (buildDataset rp ms g X y labels test es seed).X = X := by
  unfold buildDataset
  split <;> rfl

theorem buildDataset_y {F Y : Type} (rp : Nat → Nat → List Nat) (ms : Int → Nat)
    (g : Nat) (X : List F) (y : List Y) (labels : Option (List Cell))
    (test es : Bool) (seed : Int) :
    (buildDataset rp ms g X y labels test es seed).y = y := by
  unfold buildDataset
  split <;> rfl

theorem buildDataset_split {F Y : Type} (rp : Nat → Nat → List Nat) (ms : Int → Nat)
    (g : Nat) (X : List F) (y : List Y) (labels : Option (List Cell))
    (test es : Bool) (seed : Int) (h : es = true ∧ test = false) :
    (buildDataset rp ms g X y labels test es seed).indices
        = (get_data_split rp ms g X.length splitRatioDefault seed).1
    ∧ (buildDataset rp ms g X y labels test es seed).idx_valid
        = some (get_data_split rp ms g X.length splitRatioDefault seed).2 := by
  unfold buildDataset
  rw [if_pos h]
  exact ⟨rfl, rfl⟩

theorem buildDataset_no_split {F Y : Type} (rp : Nat → Nat → List Nat) (ms : Int → Nat)
    (g : Nat) (X : List F) (y : List Y) (labels : Option (List Cell))
    (test es : Bool) (seed : Int) (h : ¬(es = true ∧ test = false)) :
    (buildDataset rp ms g X y labels test es seed).indices = List.range X.length
    ∧ (buildDataset rp ms g X y labels test es seed).idx_valid = none := by
  unfold buildDataset
  rw [if_neg h]
  exact ⟨rfl, rfl⟩

theorem germEval17Init_ok {F : Type} {rp : Nat → Nat → List Nat} {ms : Int → Nat}
    {g : Nat} {pp : List Cell → List F} {data : List Row} {task : String}
    {test es : Bool} {r : ℚ} {seed : Int} {ds : PyDataset F Nat}
    (h : germEval17Init rp ms g pp data task test es r seed = .ok ds) :
    task ∈ ["Relevance", "Sentiment", "Category"]
    ∧ ∃ y, pyListMap (fun row => pyIndex (germEval17Labels task)
            (getCol row (germEval17Colidx task))) (germEval17Retained data) = .ok y
      ∧ ds = buildDataset rp ms g
          (pp ((germEval17Retained data).map fun row => getCol row 1)) y
          (some (germEval17Labels task)) test es seed := by
  unfold germEval17Init at h
  by_cases htask : task ∈ ["Relevance", "Sentiment", "Category"]
  · rw [if_pos htask] at h
    refine ⟨htask, ?_⟩
    cases hy : pyListMap (fun row => pyIndex (germEval17Labels task)
        (getCol row (germEval17Colidx task))) (germEval17Retained data) with
    | error e => rw [hy] at h; cases h
    | ok y =>
      rw [hy] at h
      injection h with h2
      exact ⟨y, rfl, h2.symm⟩
  · rw [if_neg htask] at h
    cases h

theorem germEval21vmweInit_ok {F : Type} {rp : Nat → Nat → List Nat} {ms : Int → Nat}
    {g : Nat} {pp : List Cell → List F} {data : List Row}
    {test es : Bool} {r : ℚ} {seed : Int} {ds : PyDataset F Nat}
    (h : germEval21vmweInit rp ms g pp data test es r seed = .ok ds) :
    ∃ y, pyListMap (fun row => pyIndex germEval21vmweLabels (getCol row 2))
          (germEval21vmweRetained data) = .ok y
      ∧ ds = buildDataset rp ms g
          (pp ((germEval21vmweRetained data).map fun row => getCol row 3)) y
          (some germEval21vmweLabels) test es seed := by
  unfold germEval21vmweInit at h
  cases hy : pyListMap (fun row => pyIndex germEval21vmweLabels (getCol row 2))
      (germEval21vmweRetained data) with
  | error e => rw [hy] at h; cases h
  | ok y =>
    rw [hy] at h
    injection h with h2
    exact ⟨y, rfl, h2.symm⟩

theorem length_filter_add_length_filter_not {α : Type} (p : α → Bool) (l : List α) :
    (l.filter p).length + (l.filter fun a => !p a).length = l.length := by
  induction l with
  | nil => rfl
  | cons a rest ih =>
    by_cases hpa : p a = true
    · simp [List.filter_cons, hpa, ← ih]
      omega
    · simp [List.filter_cons, hpa, ← ih]
      omega

theorem get_data_split_eq (rp : Nat → Nat → List Nat) (ms : Int → Nat) (g n : Nat)
    (r : ℚ) (seed : Int) (nv : Nat) (hnv : n_valid_of n r = nv) :
    get_data_split rp ms g n r seed
      = ((rp (seededState ms g seed) n).drop nv, (rp (seededState ms g seed) n).take nv) := by
  simp only [get_data_split, hnv]

/-- Two well-formed `GermEval17` rows: id, text, Relevance, Sentiment,
Category. -/
def dataRel : List Row :=
  [[Cell.num 0, Cell.str "a", Cell.bool false, Cell.str "negative", Cell.str "X"],
   [Cell.num 1, Cell.str "b", Cell.bool true, Cell.str "positive", Cell.str "X"]]

/-- The dataset `GermEval17.__init__` builds from `dataRel` with task
`"Relevance"`, `test=False`, `early_stopping=False` and the identity
preprocessor. -/
def dsRel : PyDataset Cell Nat :=
  { X := [Cell.str "a", Cell.str "b"], y := [0, 1],
    labels := some [Cell.bool false, Cell.bool true],
    indices := [0, 1], idx_valid := none }

/-- C4: for a dataset built by `GermEval17.__init__`, `__len__` equals the
number of feature-matrix rows when no validation split is active
(`early_stopping` false, or the test partition), and equals the length of the
splitter's training part — the stored `train_indices` — when a split is
active. -/
theorem germEval17_length_spec {F : Type} (rp : Nat → Nat → List Nat)
    (ms : Int → Nat) (g : Nat) (pp : List Cell → List F) (data : List Row)
    (task : String) (test es : Bool) (r : ℚ) (seed : Int) (ds : PyDataset F Nat)
    (h : germEval17Init rp ms g pp data task test es r seed = .ok ds) :
    (¬(es = true ∧ test = false) → ds.len = ds.X.length)
    ∧ (es = true ∧ test = false →
        ds.len = (get_data_split rp ms g ds.X.length splitRatioDefault seed).1.length) := by
  obtain ⟨-, y, hy, rfl⟩ := germEval17Init_ok h
  constructor
  · intro hno
    rw [PyDataset.len, (buildDataset_no_split rp ms g _ y _ test es seed hno).1,
      List.length_range, buildDataset_X]
  · intro hyes
    rw [PyDataset.len, (buildDataset_split rp ms g _ y _ test es seed hyes).1,
      buildDataset_X]

theorem germEval17_length_spec_witness :
    (¬(false = true ∧ false = false) → dsRel.len = dsRel.X.length)
    ∧ (false = true ∧ false = false →
        dsRel.len
          = (get_data_split rangePerm natAbsSeed 0 dsRel.X.length splitRatioDefault 42).1.length) :=
  germEval17_length_spec rangePerm natAbsSeed 0 (fun ts => ts) dataRel "Relevance"
    false false (1 / 5) 42 dsRel (by rfl)

/-- C5: `get_validation_set` on a `GermEval17` dataset returns the explicit
`(None, None)` sentinel — not an error — when `early_stopping` is false or on
the test partition, and returns `(X[idx_valid], y[idx_valid])` when a
validation split is active. -/
theorem germEval17_validation_set_spec {F : Type} (rp : Nat → Nat → List Nat)
    (ms : Int → Nat) (g : Nat) (pp : List Cell → List F) (data : List Row)
    (task : String) (test es : Bool) (r : ℚ) (seed : Int) (ds : PyDataset F Nat)
    (h : germEval17Init rp ms g pp data task test es r seed = .ok ds)
    (hpp : ∀ ts, (pp ts).length = ts.length)
    (hrp : ∀ s k, (rp s k).Perm (List.range k)) :
    (¬(es = true ∧ test = false) → ds.getValidationSet = .ok none)
    ∧ ∀ iv, ds.idx_valid = some iv →
        ∃ xs ys, fancyIndex ds.X iv = .ok xs ∧ fancyIndex ds.y iv = .ok ys
          ∧ ds.getValidationSet = .ok (some (xs, ys)) := by
  obtain ⟨-, y, hy, rfl⟩ := germEval17Init_ok h
  constructor
  · intro hno
    have hbd := buildDataset_no_split rp ms g
      (pp ((germEval17Retained data).map fun row => getCol row 1)) y
      (some (germEval17Labels task)) test es seed hno
    simp [PyDataset.getValidationSet, hbd.2]
  · intro iv hiv
    by_cases hyes : es = true ∧ test = false
    · have hbd := buildDataset_split rp ms g
        (pp ((germEval17Retained data).map fun row => getCol row 1)) y
        (some (germEval17Labels task)) test es seed hyes
      rw [hbd.2] at hiv
      injection hiv with hiv2
      subst hiv2
      have hXlen : (pp ((germEval17Retained data).map fun row => getCol row 1)).length
          = (germEval17Retained data).length := by
        rw [hpp, List.length_map]
      have hylen : y.length = (germEval17Retained data).length :=
        pyListMap_ok_length _ _ y hy
      have hmem : ∀ i ∈ (get_data_split rp ms g
          (pp ((germEval17Retained data).map fun row => getCol row 1)).length
          splitRatioDefault seed).2,
          i < (germEval17Retained data).length := by
        intro i hi
        simp only [get_data_split] at hi
        have hidx := List.mem_of_mem_take hi
        rw [(hrp _ _).mem_iff, List.mem_range, hXlen] at hidx
        exact hidx
      obtain ⟨xs, hxs⟩ := fancyIndex_total
        (pp ((germEval17Retained data).map fun row => getCol row 1)) _
        (fun i hi => hXlen ▸ hmem i hi)
      obtain ⟨ys, hys⟩ := fancyIndex_total y _ (fun i hi => hylen ▸ hmem i hi)
      refine ⟨xs, ys, ?_, ?_, ?_⟩
      · rw [buildDataset_X]
        exact hxs
      · rw [buildDataset_y]
        exact hys
      · simp [PyDataset.getValidationSet, hbd.2, buildDataset_X, buildDataset_y, hxs, hys]
    · have hbd := buildDataset_no_split rp ms g
        (pp ((germEval17Retained data).map fun row => getCol row 1)) y
        (some (germEval17Labels task)) test es seed hyes
      rw [hbd.2] at hiv
      cases hiv

theorem germEval17_validation_set_spec_witness :
    dsRel.getValidationSet = .ok none :=
  (germEval17_validation_set_spec rangePerm natAbsSeed 0 (fun ts => ts) dataRel
    "Relevance" false false (1 / 5) 42 dsRel (by rfl) (fun _ => rfl)
    (fun _ _ => List.Perm.refl _)).1 (by simp)

theorem encode_roundtrip (vocab : List Cell) (getL : Row → Cell)
    (rows : List Row) (y : List Nat)
    (hy : pyListMap (fun row => pyIndex vocab (getL row)) rows = .ok y)
    (i : Nat) (hi : i < y.length) :
    y.getD i 0 < vocab.length
    ∧ vocab.getD (y.getD i 0) Cell.nan = getL (rows.getD i []) := by
  have hlen : y.length = rows.length := pyListMap_ok_length _ rows y hy
  have hir : i < rows.length := hlen ▸ hi
  have hpt := pyListMap_ok_get _ rows y hy i hir hi
  obtain ⟨hb, hget⟩ := pyIndex_ok vocab (getL (rows.get ⟨i, hir⟩)) (y.get ⟨i, hi⟩) hpt
  have hyv : y.getD i 0 = y.get ⟨i, hi⟩ := by
    rw [List.getD_eq_getElem y 0 hi, List.get_eq_getElem]
  constructor
  · rw [hyv]
    exact hb
  · rw [hyv, List.getD_eq_getElem vocab Cell.nan hb, List.getD_eq_getElem rows [] hir]
    simpa [List.get_eq_getElem] using hget

/-- C9: in every successfully constructed `GermEval17` and `GermEval21vmwe`
dataset, each encoded label `y[i]` is a valid index into the task vocabulary
and decodes (`vocabulary[y[i]]`) to the label cell of the `i`-th retained row
— the label column value as the adapter reads it, which for `GermEval17`
means after its documented column-4 prefix normalization. -/
theorem label_roundtrip {F : Type} (rp : Nat → Nat → List Nat) (ms : Int → Nat)
    (g : Nat) (pp : List Cell → List F) (data17 dataV : List Row) (task : String)
    (test es : Bool) (r : ℚ) (seed : Int) (ds17 dsV : PyDataset F Nat)
    (h17 : germEval17Init rp ms g pp data17 task test es r seed = .ok ds17)
    (hV : germEval21vmweInit rp ms g pp dataV test es r seed = .ok dsV) :
    (∀ i, i < ds17.y.length →
        ds17.y.getD i 0 < (germEval17Labels task).length
        ∧ (germEval17Labels task).getD (ds17.y.getD i 0) Cell.nan
            = getCol ((germEval17Retained data17).getD i []) (germEval17Colidx task))
    ∧ (∀ i, i < dsV.y.length →
        dsV.y.getD i 0 < germEval21vmweLabels.length
        ∧ germEval21vmweLabels.getD (dsV.y.getD i 0) Cell.nan
            = getCol ((germEval21vmweRetained dataV).getD i []) 2) := by
  obtain ⟨-, y17, hy17, hds17⟩ := germEval17Init_ok h17
  obtain ⟨yV, hyV, hdsV⟩ := germEval21vmweInit_ok hV
  have hy17e : ds17.y = y17 := by rw [hds17, buildDataset_y]
  have hyVe : dsV.y = yV := by rw [hdsV, buildDataset_y]
  constructor
  · intro i hi
    rw [hy17e] at hi ⊢
    exact encode_roundtrip (germEval17Labels task)
      (fun row => getCol row (germEval17Colidx task)) (germEval17Retained data17)
      y17 hy17 i hi
  · intro i hi
    rw [hyVe] at hi ⊢
    exact encode_roundtrip germEval21vmweLabels (fun row => getCol row 2)
      (germEval21vmweRetained dataV) yV hyV i hi

/-- Two `GermEval21vmwe` rows, the second with a label outside the
vocabulary. -/
def dataVm : List Row :=
  [[Cell.num 0, Cell.str "id", Cell.str "figuratively", Cell.str "t"],
   [Cell.num 1, Cell.str "id", Cell.str "nope", Cell.str "u"]]

/-- The dataset `GermEval21vmwe.__init__` builds from `dataVm` with
`test=False`, `early_stopping=False` and the identity preprocessor. -/
def dsVm : PyDataset Cell Nat :=
  { X := [Cell.str "t"], y := [0],
    labels := some [Cell.str "figuratively", Cell.str "literally"],
    indices := [0], idx_valid := none }

theorem label_roundtrip_witness :
    (dsRel.y.getD 0 0 < (germEval17Labels "Relevance").length
      ∧ (germEval17Labels "Relevance").getD (dsRel.y.getD 0 0) Cell.nan
          = getCol ((germEval17Retained dataRel).getD 0 []) (germEval17Colidx "Relevance"))
    ∧ (dsVm.y.getD 0 0 < germEval21vmweLabels.length
      ∧ germEval21vmweLabels.getD (dsVm.y.getD 0 0) Cell.nan
          = getCol ((germEval21vmweRetained dataVm).getD 0 []) 2) :=
  have h := label_roundtrip rangePerm natAbsSeed 0 (fun ts => ts) dataRel dataVm
    "Relevance" false false (1 / 5) 42 dsRel dsVm (by rfl) (by rfl)
  ⟨h.1 0 (by decide), h.2 0 (by decide)⟩

/-- Ten well-formed `GermEval17` training rows with Sentiment label
`negative`. -/
def data10 : List Row :=
  List.replicate 10 [Cell.num 0, Cell.str "t", Cell.bool true, Cell.str "negative", Cell.str "X"]

/-- The dataset `GermEval17.__init__` builds from `data10` with task
`"Sentiment"`, `test=False`, `early_stopping=True`, `split_ratio=1/2`,
`random_seed=42`, the identity preprocessor and the identity permutation
generator: the validation subset has 2 elements, the size given by the
default ratio `0.2`, not by the `split_ratio` argument. -/
def dsS : PyDataset Cell Nat :=
  { X := List.replicate 10 (Cell.str "t"), y := List.replicate 10 0,
    labels := some [Cell.str "negative", Cell.str "neutral", Cell.str "positive"],
    indices := [2, 3, 4, 5, 6, 7, 8, 9], idx_valid := some [0, 1] }

theorem n_valid_default_10 : n_valid_of 10 splitRatioDefault = 2 := by
  unfold n_valid_of splitRatioDefault
  norm_num
  decide

/-- C2 fails on the code (a code bug): every constructor accepts
`split_ratio` but calls `get_data_split` without forwarding it
(data.py:75-76), so the default `0.2` always governs the validation size.
Constructed with `split_ratio = 1/2` over 10 retained samples, the stored
validation subset has `int(10 * 0.2) = 2` elements, not
`int(10 * (1/2)) = 5` as the claim requires. -/
theorem germEval17_split_ratio_ignored :
    germEval17Init rangePerm natAbsSeed 0 (fun ts : List Cell => ts) data10
        "Sentiment" false true (1 / 2) 42 = .ok dsS
    ∧ dsS.idx_valid = some [0, 1]
    ∧ n_valid_of 10 splitRatioDefault = 2
    ∧ n_valid_of 10 (1 / 2) = 5 := by
  refine ⟨?_, rfl, n_valid_default_10, ?_⟩
  · unfold germEval17Init
    rw [if_pos (show ("Sentiment" : String) ∈ ["Relevance", "Sentiment", "Category"] by decide)]
    rw [show pyListMap
        (fun row => pyIndex (germEval17Labels "Sentiment")
          (getCol row (germEval17Colidx "Sentiment")))
        (germEval17Retained data10) = .ok (List.replicate 10 0) from by decide]
    show Except.ok (buildDataset rangePerm natAbsSeed 0
      (List.replicate 10 (Cell.str "t")) (List.replicate 10 0)
      (some (germEval17Labels "Sentiment")) false true 42) = .ok dsS
    congr 1
    unfold buildDataset
    rw [if_pos (show true = true ∧ false = false from ⟨rfl, rfl⟩)]
    show PyDataset.mk (List.replicate 10 (Cell.str "t")) (List.replicate 10 0)
      (some (germEval17Labels "Sentiment"))
      (get_data_split rangePerm natAbsSeed 0 10 splitRatioDefault 42).1
      (some (get_data_split rangePerm natAbsSeed 0 10 splitRatioDefault 42).2) = dsS
    rw [get_data_split_eq rangePerm natAbsSeed 0 10 splitRatioDefault 42 2 n_valid_default_10]
    rfl
  · unfold n_valid_of
    norm_num
    decide

theorem tensorGet_in_range {α : Type} (xs : List α) (i : Int) (d : α)
    (h0 : 0 ≤ i) (h1 : i < (xs.length : Int)) :
    tensorGet xs i = .ok (xs.getD i.toNat d) := by
  unfold tensorGet
  have hneg : ¬ i < 0 := by omega
  have hc : 0 ≤ i ∧ i.toNat < xs.length := ⟨h0, by omega⟩
  simp only [if_neg hneg]
  rw [dif_pos hc]
  rw [List.getD_eq_getElem xs d hc.2, List.get_eq_getElem]

theorem tensorGet_neg_in_range {α : Type} (xs : List α) (i : Int) (d : α)
    (h0 : -(xs.length : Int) ≤ i) (h1 : i < 0) :
    tensorGet xs i = .ok (xs.getD (i + xs.length).toNat d) := by
  unfold tensorGet
  have hc : 0 ≤ i + (xs.length : Int) ∧ (i + (xs.length : Int)).toNat < xs.length :=
    ⟨by omega, by omega⟩
  simp only [if_pos h1]
  rw [dif_pos hc]
  rw [List.getD_eq_getElem xs d hc.2, List.get_eq_getElem]

theorem tensorGet_out_of_range {α : Type} (xs : List α) (i : Int)
    (h : (xs.length : Int) ≤ i ∨ i < -(xs.length : Int)) :
    tensorGet xs i = .error PyError.indexError := by
  unfold tensorGet
  by_cases hneg : i < 0
  · simp only [if_pos hneg]
    rw [dif_neg (by omega)]
  · simp only [if_neg hneg]
    rw [dif_neg (by omega)]

/-- A small concrete labeled-dataset instance for the indexing claims. -/
def dsIdx : PyDataset Cell Nat :=
  { X := [Cell.str "x", Cell.str "y"], y := [0, 1], labels := none,
    indices := [0, 1], idx_valid := none }

/-- C6 as stated is false: `__getitem__` does not fail for every index
outside `[0, length())`. A torch tensor accepts negative indices in
`[-length(), -1]` and counts from the end, so on a 2-element dataset
`get(-1)` returns the last element instead of raising. -/
theorem getItem_negative_index_ok :
    dsIdx.getItem (-1) = .ok (Cell.str "y", 1) ∧ ¬(0 ≤ (-1 : Int)) := by
  exact ⟨rfl, by decide⟩

/-- C6 amended: `get(i)` returns
`(features[active_indices[i]], labels[active_indices[i]])` for
`0 ≤ i < length()`, fails with an out-of-range error for `i ≥ length()` and
for `i < -length()`, and — per Python's negative-index convention — returns
the element at position `length() + i` for `-length() ≤ i < 0`. -/
theorem getItem_index_spec {F Y : Type} (ds : PyDataset F Y) (i : Int)
    (xd : F) (yd : Y)
    (hX : ∀ j ∈ ds.indices, j < ds.X.length)
    (hY : ∀ j ∈ ds.indices, j < ds.y.length) :
    (0 ≤ i ∧ i < (ds.len : Int) →
      ds.getItem i = .ok (ds.X.getD (ds.indices.getD i.toNat 0) xd,
                          ds.y.getD (ds.indices.getD i.toNat 0) yd))
    ∧ (-(ds.len : Int) ≤ i ∧ i < 0 →
      ds.getItem i = .ok (ds.X.getD (ds.indices.getD (i + ds.len).toNat 0) xd,
                          ds.y.getD (ds.indices.getD (i + ds.len).toNat 0) yd))
    ∧ ((ds.len : Int) ≤ i ∨ i < -(ds.len : Int) →
      ds.getItem i = .error PyError.indexError) := by
  have hlen : ds.len = ds.indices.length := rfl
  refine ⟨?_, ?_, ?_⟩
  · rintro ⟨hi0, hi1⟩
    have hit : i.toNat < ds.indices.length := by omega
    have hgd : ds.indices.getD i.toNat 0 = ds.indices.get ⟨i.toNat, hit⟩ := by
      rw [List.getD_eq_getElem _ _ hit, List.get_eq_getElem]
    have hmem : ds.indices.getD i.toNat 0 ∈ ds.indices := by
      rw [hgd]
      exact List.get_mem _ _ _
    have hjX : ds.indices.getD i.toNat 0 < ds.X.length := hX _ hmem
    have hjY : ds.indices.getD i.toNat 0 < ds.y.length := hY _ hmem
    simp only [PyDataset.getItem,
      tensorGet_in_range ds.indices i 0 hi0 (by omega),
      tensorGet_in_range ds.X _ xd (Int.natCast_nonneg _) (by exact_mod_cast hjX),
      tensorGet_in_range ds.y _ yd (Int.natCast_nonneg _) (by exact_mod_cast hjY),
      Int.toNat_natCast]
  · rintro ⟨hi0, hi1⟩
    have hit : (i + ds.len).toNat < ds.indices.length := by omega
    have hadd : (i + (ds.indices.length : Int)).toNat = (i + ds.len).toNat := by
      rw [hlen]
    have hgd : ds.indices.getD (i + ds.len).toNat 0
        = ds.indices.get ⟨(i + ds.len).toNat, hit⟩ := by
      rw [List.getD_eq_getElem _ _ hit, List.get_eq_getElem]
    have hmem : ds.indices.getD (i + ds.len).toNat 0 ∈ ds.indices := by
      rw [hgd]
      exact List.get_mem _ _ _
    have hjX : ds.indices.getD (i + ds.len).toNat 0 < ds.X.length := hX _ hmem
    have hjY : ds.indices.getD (i + ds.len).toNat 0 < ds.y.length := hY _ hmem
    simp only [PyDataset.getItem,
      tensorGet_neg_in_range ds.indices i 0 (by omega) hi1,
      hadd,
      tensorGet_in_range ds.X _ xd (Int.natCast_nonneg _) (by exact_mod_cast hjX),
      tensorGet_in_range ds.y _ yd (Int.natCast_nonneg _) (by exact_mod_cast hjY),
      Int.toNat_natCast]
  · intro hout
    simp only [PyDataset.getItem,
      tensorGet_out_of_range ds.indices i (by omega)]

theorem getItem_index_spec_witness :
    dsIdx.getItem 0 = .ok (Cell.str "x", 0) :=
  (getItem_index_spec dsIdx 0 Cell.nan 0 (by decide) (by decide)).1
    ⟨by decide, by decide⟩

/-- The message carried by a raised exception, if any. -/
def PyError.message : PyError → Option String
  | .assertionError m => m
  | _ => none

/-- Two `GermEval17` rows with string text fields; the second carries the
Sentiment label `happy`, which is outside the task vocabulary. -/
def dataBadLabel : List Row :=
  [[Cell.num 0, Cell.str "a", Cell.bool true, Cell.str "negative", Cell.str "X"],
   [Cell.num 1, Cell.str "b", Cell.bool true, Cell.str "happy", Cell.str "X"]]

/-- C7 as stated is false for `GermEval17`: its row filter removes only rows
whose text field is not a string, so a row whose label is outside the task
vocabulary is not dropped — construction aborts with `ValueError` during
label encoding instead of yielding a dataset of length `original − 1`. -/
theorem germEval17_bad_label_errors :
    germEval17Init rangePerm natAbsSeed 0 (fun ts : List Cell => ts) dataBadLabel
      "Sentiment" false false (1 / 5) 42 = .error PyError.valueError := by
  rfl

/-- C7 amended: only `GermEval21vmwe` filters rows by vocabulary membership;
there, a source file with exactly one out-of-vocabulary-label row yields a
dataset with `original − 1` retained samples. (In the other adapters such a
row is not dropped: when it passes their own row filter, construction fails —
see the counterexample.) -/
theorem vmwe_drops_bad_label_row {F : Type} (rp : Nat → Nat → List Nat)
    (ms : Int → Nat) (g : Nat) (pp : List Cell → List F) (data : List Row)
    (test : Bool) (r : ℚ) (seed : Int)
    (hpp : ∀ ts, (pp ts).length = ts.length)
    (hbad : (data.filter fun row => !decide (getCol row 2 ∈ germEval21vmweLabels)).length = 1) :
    Except.map (fun ds => ds.len) (germEval21vmweInit rp ms g pp data test false r seed)
      = .ok (data.length - 1)
    ∧ Except.map (fun ds => ds.y.length) (germEval21vmweInit rp ms g pp data test false r seed)
      = .ok (data.length - 1) := by
  have h2 : (data.filter fun row => decide (getCol row 2 ∈ germEval21vmweLabels)).length
      + (data.filter fun row => !decide (getCol row 2 ∈ germEval21vmweLabels)).length
      = data.length := length_filter_add_length_filter_not _ data
  have hret : (germEval21vmweRetained data).length = data.length - 1 := by
    unfold germEval21vmweRetained
    omega
  have henc : ∀ row ∈ germEval21vmweRetained data, ∃ b,
      pyIndex germEval21vmweLabels (getCol row 2) = Except.ok b := by
    intro row hrow
    have hmem := (List.mem_filter.1 hrow).2
    exact pyIndex_mem _ _ (of_decide_eq_true hmem)
  obtain ⟨ys, hys⟩ := pyListMap_total _ _ henc
  have hyslen : ys.length = (germEval21vmweRetained data).length :=
    pyListMap_ok_length _ _ ys hys
  have hini : germEval21vmweInit rp ms g pp data test false r seed
      = .ok (buildDataset rp ms g
          (pp ((germEval21vmweRetained data).map fun row => getCol row 3)) ys
          (some germEval21vmweLabels) test false seed) := by
    unfold germEval21vmweInit
    rw [hys]
  have hbds := buildDataset_no_split rp ms g
    (pp ((germEval21vmweRetained data).map fun row => getCol row 3)) ys
    (some germEval21vmweLabels) test false seed (by simp)
  constructor
  · rw [hini]
    simp only [Except.map]
    congr 1
    rw [PyDataset.len, hbds.1, List.length_range, hpp, List.length_map, hret]
  · rw [hini]
    simp only [Except.map]
    congr 1
    rw [buildDataset_y, hyslen, hret]

theorem vmwe_drops_bad_label_row_witness :
    Except.map (fun ds => ds.len)
        (germEval21vmweInit rangePerm natAbsSeed 0 (fun ts : List Cell => ts) dataVm
          false false (1 / 5) 42) = .ok (dataVm.length - 1)
    ∧ Except.map (fun ds => ds.y.length)
        (germEval21vmweInit rangePerm natAbsSeed 0 (fun ts : List Cell => ts) dataVm
          false false (1 / 5) 42) = .ok (dataVm.length - 1) :=
  vmwe_drops_bad_label_row rangePerm natAbsSeed 0 (fun ts => ts) dataVm false
    (1 / 5) 42 (fun _ => rfl) (by decide)

/-- C8 as stated is false in one respect: the invalid-task failure is a bare
`assert`, which raises an `AssertionError` carrying no message at all, so the
raised error does not name the allowed set (the set text appears only in the
source line of the traceback, not in the error value). -/
theorem invalid_task_error_has_no_message :
    germEval17Init rangePerm natAbsSeed 0 (fun ts : List Cell => ts) [] "bogus"
        false false (1 / 5) 42 = .error (PyError.assertionError none)
    ∧ (PyError.assertionError none).message = none :=
  ⟨rfl, rfl⟩

/-- C8 amended: constructing `GermEval17`, `GermEval18`, `GermEval19` or
`GermEval21` with a task selector outside its fixed allowed set fails at
construction, before any data file is read — the same error results for every
file content — with an assertion error that carries no message.
(`GermEval21vmwe` takes no task selector, so the claim is vacuous for it.) -/
theorem invalid_task_asserts {F : Type} (rp : Nat → Nat → List Nat)
    (ms : Int → Nat) (g : Nat) (pp : List Cell → List F)
    (d17 d18 d19 d21 : List Row) (task : String) (test es : Bool) (r : ℚ)
    (seed : Int)
    (h17 : task ∉ ["Relevance", "Sentiment", "Category"])
    (h18 : task ∉ ["A", "B", "C"])
    (h21 : task ∉ ["TOXIC", "ENGAGE", "FCLAIM"]) :
    germEval17Init rp ms g pp d17 task test es r seed = .error (PyError.assertionError none)
    ∧ germEval18Init rp ms g pp d18 task test es r seed = .error (PyError.assertionError none)
    ∧ germEval19Init rp ms g pp d19 task test es r seed = .error (PyError.assertionError none)
    ∧ germEval21Init rp ms g pp d21 task test es r seed = .error (PyError.assertionError none) := by
  refine ⟨?_, ?_, ?_, ?_⟩
  · unfold germEval17Init
    rw [if_neg h17]
  · unfold germEval18Init
    rw [if_neg h18]
  · unfold germEval19Init
    rw [if_neg h18]
  · unfold germEval21Init
    rw [if_neg h21]

theorem invalid_task_asserts_witness :
    germEval17Init rangePerm natAbsSeed 0 (fun ts : List Cell => ts) [] "bogus"
        false false (1 / 5) 42 = .error (PyError.assertionError none)
    ∧ germEval18Init rangePerm natAbsSeed 0 (fun ts : List Cell => ts) [] "bogus"
        false false (1 / 5) 42 = .error (PyError.assertionError none)
    ∧ germEval19Init rangePerm natAbsSeed 0 (fun ts : List Cell => ts) [] "bogus"
        false false (1 / 5) 42 = .error (PyError.assertionError none)
    ∧ germEval21Init rangePerm natAbsSeed 0 (fun ts : List Cell => ts) [] "bogus"
        false false (1 / 5) 42 = .error (PyError.assertionError none) :=
  invalid_task_asserts rangePerm natAbsSeed 0 (fun ts => ts) [] [] [] [] "bogus"
    false false (1 / 5) 42 (by decide) (by decide) (by decide)

/-- C10 as stated is false in one respect: with a data file holding zero
rows, the label-encoding comprehension is empty, `self.labels` is never
touched, and `GermEval18` with task `"C"` constructs successfully — so
construction does not *never* succeed. -/
theorem germEval18_taskC_empty_ok :
    germEval18Init rangePerm natAbsSeed 0 (fun ts : List Cell => ts) [] "C"
        false false (1 / 5) 42
      = .ok { X := [], y := [], labels := none, indices := [], idx_valid := none } := by
  rfl

/-- C10 amended: `GermEval18` with task `"C"` passes the allowed-set
assertion (which admits `"A"`, `"B"`, `"C"`), but the `if`/`elif` chain
assigns no label vocabulary for `"C"`, so on every file with at least one
data row construction fails with an undefined-attribute error during label
encoding — after the data file has been read. -/
theorem germEval18_taskC_fails_nonempty {F : Type} (rp : Nat → Nat → List Nat)
    (ms : Int → Nat) (g : Nat) (pp : List Cell → List F) (row : Row)
    (rest : List Row) (test es : Bool) (r : ℚ) (seed : Int) :
    germEval18Init rp ms g pp (row :: rest) "C" test es r seed
      = .error PyError.attributeError := by
  have hlab : germEval18Labels "C" = none := rfl
  unfold germEval18Init
  rw [if_pos (by decide : ("C" : String) ∈ ["A", "B", "C"])]
  simp only [pyListMap, hlab]
